import Mathlib

/-!
# Verification of the PythonFastAPICC challenge verifier

Shallow embedding of the "Challenge Verifier" of this repository:

* `challenge_hash.py`: the standalone helper `compute_hash`, a pure function
  computing the hex SHA-256 of the string `f"{alpha}-{beta}-{gamma}-{nonce}"`.
* `main.py` (challenge section): the four request handlers
  `challenge_submit`, `challenge_key_start`, `challenge_key_hash` and
  `challenge_prize`, operating on the process-wide maps `NONCES` and `KEYS`.

The SHA-256 primitive the Python code obtains from `hashlib` is embedded as an
executable Lean function over byte lists (FIPS 180-4), all machine words being
`Nat` reduced modulo `2 ^ 32` where overflow matters.  Randomness
(`secrets.token_hex`, `secrets.token_urlsafe`) is an external collaborator and
enters each handler as an explicit parameter.  Mutation of the global maps is
state passing on a `ChallengeState` record; a Python `raise HTTPException`
becomes an `Except.error` carrying the status code and detail string.
-/

namespace Challenge

/-! ## SHA-256 (the `hashlib.sha256(...).hexdigest()` primitive) -/

/-- Modulus `2 ^ 32` of all 32-bit word arithmetic in SHA-256. -/
def M32 : Nat := 4294967296

/-- Right rotation of a 32-bit word (argument assumed `< 2 ^ 32`). -/
def rotr (n x : Nat) : Nat := (x >>> n) ||| ((x <<< (32 - n)) % M32)

/-- The 64 SHA-256 round constants (FIPS 180-4 §4.2.2), written in decimal. -/
def Ktable : List Nat :=
  [1116352408, 1899447441, 3049323471, 3921009573, 961987163,
   1508970993, 2453635748, 2870763221, 3624381080, 310598401,
   607225278, 1426881987, 1925078388, 2162078206, 2614888103,
   3248222580, 3835390401, 4022224774, 264347078, 604807628,
   770255983, 1249150122, 1555081692, 1996064986, 2554220882,
   2821834349, 2952996808, 3210313671, 3336571891, 3584528711,
   113926993, 338241895, 666307205, 773529912, 1294757372,
   1396182291, 1695183700, 1986661051, 2177026350, 2456956037,
   2730485921, 2820302411, 3259730800, 3345764771, 3516065817,
   3600352804, 4094571909, 275423344, 430227734, 506948616,
   659060556, 883997877, 958139571, 1322822218, 1537002063,
   1747873779, 1955562222, 2024104815, 2227730452, 2361852424,
   2428436474, 2756734187, 3204031479, 3329325298]

/-- The initial SHA-256 hash value (FIPS 180-4 §5.3.3), written in decimal. -/
def Hinit : List Nat :=
  [1779033703, 3144134277, 1013904242, 2773480762, 1359893119,
   2600822924, 528734635, 1541459225]

/-- Big-endian rendering of the value `v` on `n` bytes. -/
def bytesBE : Nat → Nat → List Nat
  | 0, _ => []
  | n + 1, v => bytesBE n (v / 256) ++ [v % 256]

/-- SHA-256 padding: append `0x80`, zero bytes to 56 mod 64, then the
bit length as 8 big-endian bytes. -/
def pad (msg : List Nat) : List Nat :=
  let L := msg.length
  let zeros := (119 - (L % 64)) % 64
  msg ++ [0x80] ++ List.replicate zeros 0 ++ bytesBE 8 (L * 8)

/-- Group a byte list into big-endian 32-bit words. -/
def toWords : List Nat → List Nat
  | b0 :: b1 :: b2 :: b3 :: rest =>
      (((b0 * 256 + b1) * 256 + b2) * 256 + b3) :: toWords rest
  | _ => []

/-- Split a word list into 16-word blocks (`fuel` bounds the recursion). -/
def chunks16 : Nat → List Nat → List (List Nat)
  | _, [] => []
  | 0, _ => []
  | f + 1, ws => ws.take 16 :: chunks16 f (ws.drop 16)

/-- List indexing with default 0 (all indices used are in range). -/
def wd (l : List Nat) (i : Nat) : Nat := (l.get? i).getD 0

/-- Message-schedule function sigma0. -/
def sig0 (x : Nat) : Nat := (rotr 7 x) ^^^ (rotr 18 x) ^^^ (x >>> 3)

/-- Message-schedule function sigma1. -/
def sig1 (x : Nat) : Nat := (rotr 17 x) ^^^ (rotr 19 x) ^^^ (x >>> 10)

/-- Compression function Sigma0. -/
def big0 (x : Nat) : Nat := (rotr 2 x) ^^^ (rotr 13 x) ^^^ (rotr 22 x)

/-- Compression function Sigma1. -/
def big1 (x : Nat) : Nat := (rotr 6 x) ^^^ (rotr 11 x) ^^^ (rotr 25 x)

/-- Ch(x,y,z); ¬x is xor with the 32-bit all-ones word. -/
def ch (x y z : Nat) : Nat := (x &&& y) ^^^ ((x ^^^ 0xffffffff) &&& z)

/-- Maj(x,y,z). -/
def maj (x y z : Nat) : Nat := (x &&& y) ^^^ (x &&& z) ^^^ (y &&& z)

/-- Extend a 16-word block by `n` further schedule words. -/
def schedule : Nat → List Nat → List Nat
  | 0, w => w
  | n + 1, w =>
      let i := w.length
      let wi := (wd w (i - 16) + sig0 (wd w (i - 15)) +
                 wd w (i - 7) + sig1 (wd w (i - 2))) % M32
      schedule n (w ++ [wi])

/-- One round of the SHA-256 compression function on the 8-word state. -/
def round1 (st : List Nat) (kw : Nat × Nat) : List Nat :=
  match st with
  | [a, b, c, d, e, f, g, h] =>
      let t1 := (h + big1 e + ch e f g + kw.1 + kw.2) % M32
      let t2 := (big0 a + maj a b c) % M32
      [(t1 + t2) % M32, a, b, c, (d + t1) % M32, e, f, g]
  | other => other

/-- Pointwise addition modulo `2 ^ 32` of two word lists. -/
def zipAdd : List Nat → List Nat → List Nat
  | x :: xs, y :: ys => ((x + y) % M32) :: zipAdd xs ys
  | _, _ => []

/-- Process one 16-word block against the running 8-word hash value. -/
def compressBlock (h : List Nat) (block : List Nat) : List Nat :=
  let w := schedule 48 block
  zipAdd h ((Ktable.zip w).foldl round1 h)

/-- SHA-256 of a byte list, as the final 8-word hash value. -/
def sha256Words (msg : List Nat) : List Nat :=
  let ws := toWords (pad msg)
  (chunks16 ws.length ws).foldl compressBlock Hinit

/-- Lowercase hex digit for `n < 16`. -/
def hexDigit (n : Nat) : Char :=
  if n < 10 then Char.ofNat (48 + n) else Char.ofNat (87 + n)

/-- A 32-bit word as 8 lowercase hex characters. -/
def hexWord (w : Nat) : String :=
  String.mk ((List.range 8).map fun i => hexDigit ((w >>> ((7 - i) * 4)) % 16))

/-- Hex digest: SHA-256 of a byte list as a 64-character lowercase hex
string. -/
def sha256Hex (msg : List Nat) : String :=
  String.join ((sha256Words msg).map hexWord)

/-- UTF-8 encoding of one character (Python `str.encode()` is UTF-8). -/
def utf8Char (c : Char) : List Nat :=
  let n := c.toNat
  if n < 0x80 then [n]
  else if n < 0x800 then
    [0xc0 ||| (n >>> 6), 0x80 ||| (n &&& 0x3f)]
  else if n < 0x10000 then
    [0xe0 ||| (n >>> 12), 0x80 ||| ((n >>> 6) &&& 0x3f), 0x80 ||| (n &&& 0x3f)]
  else
    [0xf0 ||| (n >>> 18), 0x80 ||| ((n >>> 12) &&& 0x3f),
     0x80 ||| ((n >>> 6) &&& 0x3f), 0x80 ||| (n &&& 0x3f)]

/-- UTF-8 byte encoding of a string, as the Python method encode produces. -/
def utf8Bytes (s : String) : List Nat := (s.data.map utf8Char).flatten

/-- Hex SHA-256 digest of the UTF-8 encoding of a string, the composite
the Python code obtains from hashlib. -/
def sha256HexOfString (s : String) : String := sha256Hex (utf8Bytes s)

/-! ## `challenge_hash.py`: the helper `compute_hash` -/

/-- Python decimal rendering of an int inside an f-string: sign then digits. -/
def intStr (a : Int) : String := toString a

/-- Function `compute_hash` from `challenge_hash.py`: builds
the hyphen-joined string of the three decimal numbers and the nonce and
returns its hex SHA-256 digest. -/
def compute_hash (alpha beta gamma : Int) (nonce : String) : String :=
  let s := intStr alpha ++ "-" ++ intStr beta ++ "-" ++ intStr gamma ++ "-" ++ nonce
  sha256HexOfString s

/-! ## `main.py`: data model of the challenge section -/

/-- The dictionary `SECRET_NUMBERS = {"alpha": 7, "beta": 13, "gamma": 21}`
as an association list in insertion order. -/
def SECRET_NUMBERS : List (String × Int) :=
  [("alpha", 7), ("beta", 13), ("gamma", 21)]

/-- Python dictionary lookup `d[k]` returning `none` when the key is absent
(for `SECRET_NUMBERS` every key used is present, so the `KeyError` path is
unreachable). -/
def dictGet : List (String × Int) → String → Option Int
  | [], _ => none
  | (k, v) :: rest, key => if k = key then some v else dictGet rest key

/-- Lookup of `SECRET_NUMBERS` at a key present in the literal dictionary. -/
def secretVal (k : String) : Int := (dictGet SECRET_NUMBERS k).getD 0

/-- Sum of the values of `SECRET_NUMBERS`. -/
def secretSum : Int := (SECRET_NUMBERS.map Prod.snd).sum

/-- The global maps `NONCES` and `KEYS` of `main.py`, keyed by the client
identifier (the network address of the requester). -/
structure ChallengeState where
  NONCES : String → Option String
  KEYS : String → Option String

/-- The empty maps `NONCES = {}`, `KEYS = {}` at process start. -/
def initState : ChallengeState := ⟨fun _ => none, fun _ => none⟩

/-- A `raise HTTPException(status_code=..., detail=...)`. -/
structure HTTPError where
  status_code : Nat
  detail : String
deriving DecidableEq, Repr

/-- Exception raised on a wrong sum: status 400, detail Incorrect result. -/
def incorrectResult : HTTPError := ⟨400, "Incorrect result. Try again."⟩

/-- Exception raised on a wrong nonce: status 400, detail Invalid or expired nonce. -/
def invalidNonce : HTTPError := ⟨400, "Invalid or expired nonce"⟩

/-- Exception raised on a wrong hash: status 400, detail Incorrect hash. -/
def incorrectHash : HTTPError := ⟨400, "Incorrect hash"⟩

/-- Exception raised on a wrong key: status 403, detail Valid key required. -/
def invalidKey : HTTPError := ⟨403, "Valid key required"⟩

/-- Request body of `/challenge/submit` (`ChallengeSubmission`). -/
structure ChallengeSubmission where
  result : Int
deriving DecidableEq, Repr

/-- Request body of `/challenge/key/hash` (`HashSubmission`). -/
structure HashSubmission where
  nonce : String
  hash : String
deriving DecidableEq, Repr

/-- Success payload of `/challenge/submit`. -/
structure WinPayload where
  status : String
  message : String
  prize : String
  next : String
deriving DecidableEq, Repr

/-- Payload of `/challenge/key/start`. -/
structure KeyStartPayload where
  step : String
  nonce : String
  instructions : String
deriving DecidableEq, Repr

/-- Success payload of `/challenge/key/hash`. -/
structure KeyHashPayload where
  status : String
  next : String
  key_hint : String
  key : String
deriving DecidableEq, Repr

/-- Success payload of `/challenge/prize`. -/
structure PrizePayload where
  prize : String
  reward : String
deriving DecidableEq, Repr

/-- Python truthiness of the optional query parameter `key: str | None`:
`None` and the empty string are falsy. -/
def pyTruthy : Option String → Bool
  | none => false
  | some s => !(s == "")

/-! ## `main.py`: the four challenge handlers

Each handler takes the global state and returns the (possibly updated)
global state together with its outcome, so that a `raise` part-way through
would keep any mutation already performed. -/

/-- Handler `challenge_submit` (POST /challenge/submit): succeeds exactly when
`data.result` equals `sum(SECRET_NUMBERS.values())`; touches no global
state. -/
def challenge_submit (st : ChallengeState) (data : ChallengeSubmission) :
    ChallengeState × Except HTTPError WinPayload :=
  if data.result = secretSum then
    (st, .ok { status := "WIN",
               message := "🎉 Congratulations! You solved the first API challenge!",
               prize := "Access granted to the second endpoint",
               next := "/challenge/key/start" })
  else
    (st, .error incorrectResult)

/-- Handler `challenge_key_start` (GET /challenge/key/start): unconditionally
stores a fresh nonce (`secrets.token_hex(16)`, supplied here as the
parameter `nonce`) under the client identifier and returns it. -/
def challenge_key_start (st : ChallengeState) (ip : String) (nonce : String) :
    ChallengeState × KeyStartPayload :=
  ({ st with NONCES := fun c => if c = ip then some nonce else st.NONCES c },
   { step := "hash",
     nonce := nonce,
     instructions := "Compute SHA256 of \x27alpha-beta-gamma-<nonce>\x27 and POST to /challenge/key/hash" })

/-- String hashed by `challenge_key_hash`: the three secret values looked up
in the dictionary, rendered in decimal, then the submitted nonce, joined by
hyphens. -/
def expectedHashString (nonce : String) : String :=
  intStr (secretVal "alpha") ++ "-" ++ intStr (secretVal "beta") ++ "-" ++
    intStr (secretVal "gamma") ++ "-" ++ nonce

/-- The `expected` digest recomputed by `challenge_key_hash`. -/
def serverExpectedHash (nonce : String) : String :=
  sha256HexOfString (expectedHashString nonce)

/-- Handler `challenge_key_hash` (POST /challenge/key/hash): rejects when
`NONCES.get(ip) != data.nonce`, then when `data.hash != expected`;
otherwise stores a fresh key (`secrets.token_urlsafe(16)`, supplied here
as the parameter `freshKey`) under the client identifier and returns it. -/
def challenge_key_hash (st : ChallengeState) (ip : String)
    (data : HashSubmission) (freshKey : String) :
    ChallengeState × Except HTTPError KeyHashPayload :=
  if st.NONCES ip ≠ some data.nonce then
    (st, .error invalidNonce)
  else if data.hash ≠ serverExpectedHash data.nonce then
    (st, .error incorrectHash)
  else
    ({ st with KEYS := fun c => if c = ip then some freshKey else st.KEYS c },
     .ok { status := "OK",
           next := "/challenge/prize",
           key_hint := "Use query param ?key=...",
           key := freshKey })

/-- Handler `challenge_prize` (GET /challenge/prize): rejects when
`not key or KEYS.get(ip) != key`; touches no global state. -/
def challenge_prize (st : ChallengeState) (ip : String) (key : Option String) :
    ChallengeState × Except HTTPError PrizePayload :=
  if pyTruthy key = false ∨ st.KEYS ip ≠ key then
    (st, .error invalidKey)
  else
    (st, .ok { prize := "API Master Badge", reward := "Certificate" })

/-! ## Request traces

A trace of challenge requests, each tagged with the client identifier the
framework resolves for it; the fresh random values drawn inside a handler
are recorded in the event. -/

/-- One challenge request (fresh random tokens inlined). -/
inductive Req where
  | submit (data : ChallengeSubmission)
  | keyStart (freshNonce : String)
  | keyHash (data : HashSubmission) (freshKey : String)
  | prize (key : Option String)
deriving DecidableEq, Repr

/-- The state transition a single request performs. -/
def step (st : ChallengeState) (ip : String) : Req → ChallengeState
  | .submit data => (challenge_submit st data).1
  | .keyStart n => (challenge_key_start st ip n).1
  | .keyHash data k => (challenge_key_hash st ip data k).1
  | .prize k => (challenge_prize st ip k).1

/-- Run a trace of `(client, request)` pairs from the initial empty maps. -/
def runTrace (tr : List (String × Req)) : ChallengeState :=
  tr.foldl (fun st p => step st p.1 p.2) initState

/-- Does the request issue a nonce (is it a `challenge_key_start` call)? -/
def isKeyStart : Req → Bool
  | .keyStart _ => true
  | _ => false

/-- Is the request a `challenge_submit` call? -/
def isSubmit : Req → Bool
  | .submit _ => true
  | _ => false

/-- Does the trace contain a `challenge_key_start` call by client `ip`? -/
def hasKeyStart (tr : List (String × Req)) (ip : String) : Bool :=
  tr.any fun p => p.1 == ip && isKeyStart p.2

/-- Does the trace contain a `challenge_submit` call by client `ip`? -/
def hasSubmit (tr : List (String × Req)) (ip : String) : Bool :=
  tr.any fun p => p.1 == ip && isSubmit p.2

/-! ## Concrete test data -/

/-- A sample client identifier. -/
def testClient : String := "203.0.113.7"

/-- Another client identifier, distinct from `testClient`. -/
def otherClient : String := "198.51.100.2"

/-- Hex SHA-256 digest of the string 7-13-21-abc123 (the example of the
specification), cross-checked against an external SHA-256 implementation. -/
def abc123Digest : String :=
  "dba1584d6f77d122651bd314f01645c5051f827e4198e16db701078ffa56f920"

/-- A state in which `testClient` holds the nonce abc123 and no keys exist. -/
def stWithNonce : ChallengeState :=
  ⟨fun c => if c = testClient then some "abc123" else none, fun _ => none⟩

/-- A state in which `testClient` holds the key K0 and no nonces exist. -/
def stWithKey : ChallengeState :=
  ⟨fun _ => none, fun c => if c = testClient then some "K0" else none⟩

end Challenge

deriving instance DecidableEq for Except

namespace Challenge

/-! ## Sanity anchors for the SHA-256 embedding -/

/-- FIPS 180-4 test vector: digest of the empty string. -/
theorem sha256_vector_empty :
    sha256HexOfString "" =
      "e3b0c44298fc1c149afbf4c8996fb92427ae41e4649b934ca495991b7852b855" := by decide

/-- FIPS 180-4 test vector: digest of the three-byte message abc. -/
theorem sha256_vector_abc :
    sha256HexOfString "abc" =
      "ba7816bf8f01cfea414140de5dae2223b00361a396177a9cb410ff61f20015ad" := by decide

/-! ## Frame lemmas on the handlers -/

/-- Lemma: `challenge_submit` never changes the global maps. -/
theorem challenge_submit_fst (st : ChallengeState) (d : ChallengeSubmission) :
    (challenge_submit st d).1 = st := by
  unfold challenge_submit; split <;> rfl

/-- Lemma: `challenge_prize` never changes the global maps. -/
theorem challenge_prize_fst (st : ChallengeState) (ip : String) (key : Option String) :
    (challenge_prize st ip key).1 = st := by
  unfold challenge_prize; split <;> rfl

/-- Lemma: `challenge_key_hash` never changes `NONCES`. -/
theorem challenge_key_hash_NONCES (st : ChallengeState) (ip : String)
    (d : HashSubmission) (k : String) :
    (challenge_key_hash st ip d k).1.NONCES = st.NONCES := by
  unfold challenge_key_hash
  split
  · rfl
  · split <;> rfl

/-- Lemma: a request by `ip2` that is not a nonce issuance for `ip` keeps
an absent `NONCES` entry of `ip` absent. -/
theorem step_NONCES_none (st : ChallengeState) (ip ip2 : String) (r : Req)
    (h : st.NONCES ip = none) (hr : (ip2 == ip && isKeyStart r) = false) :
    (step st ip2 r).NONCES ip = none := by
  cases r with
  | submit d =>
      show (challenge_submit st d).1.NONCES ip = none
      rw [challenge_submit_fst]; exact h
  | keyStart n =>
      have hne : ip ≠ ip2 := by
        simp [isKeyStart] at hr
        exact fun hc => hr hc.symm
      show (challenge_key_start st ip2 n).1.NONCES ip = none
      simpa [challenge_key_start, hne] using h
  | keyHash d k =>
      show (challenge_key_hash st ip2 d k).1.NONCES ip = none
      rw [challenge_key_hash_NONCES]; exact h
  | prize k =>
      show (challenge_prize st ip2 k).1.NONCES ip = none
      rw [challenge_prize_fst]; exact h

/-- Lemma: running a trace with no nonce issuance for `ip` from a state in
which `ip` has no nonce leaves `ip` without a nonce. -/
theorem trace_NONCES_none (tr : List (String × Req)) (ip : String)
    (st : ChallengeState) (h : st.NONCES ip = none)
    (htr : hasKeyStart tr ip = false) :
    (tr.foldl (fun s p => step s p.1 p.2) st).NONCES ip = none := by
  induction tr generalizing st with
  | nil => exact h
  | cons p rest ih =>
      simp only [hasKeyStart, List.any_cons, Bool.or_eq_false_iff] at htr
      rw [List.foldl_cons]
      exact ih (step st p.1 p.2) (step_NONCES_none st ip p.1 p.2 h htr.1) htr.2

/-- Lemma: after any trace with no nonce issuance for `ip`, client `ip`
has no stored nonce. -/
theorem runTrace_NONCES_none (tr : List (String × Req)) (ip : String)
    (htr : hasKeyStart tr ip = false) : (runTrace tr).NONCES ip = none :=
  trace_NONCES_none tr ip initState rfl htr

/-! ## The claims -/

/-- C1: `compute_hash` is deterministic, and for all integers and every
nonce string it equals the hex-encoded SHA-256 digest of the hyphen-joined
string of the decimal renderings of the three integers and the nonce. -/
theorem C1_compute_hash_deterministic_and_spec (a b c : Int) (n : String) :
    compute_hash a b c n = compute_hash a b c n ∧
    compute_hash a b c n =
      sha256HexOfString (intStr a ++ "-" ++ intStr b ++ "-" ++ intStr c ++ "-" ++ n) :=
  ⟨rfl, rfl⟩

/-- C2: the expected hash the server computes in `challenge_key_hash` from
the fixed secrets and the supplied nonce is extensionally equal to the
helper `compute_hash` at 7, 13, 21 and that nonce. -/
theorem C2_server_hash_matches_helper (n : String) :
    serverExpectedHash n = compute_hash 7 13 21 n := rfl

/-- C3: `challenge_key_hash` fails with the invalid-nonce error exactly when
the stored nonce is absent or differs from the supplied one; with a matching
nonce it fails with the incorrect-hash error exactly when the supplied hash
differs from the hex SHA-256 of 7-13-21-nonce; it succeeds exactly when both
checks pass, and then stores the fresh key under the client and returns it. -/
theorem C3_key_hash_spec (st : ChallengeState) (ip : String)
    (d : HashSubmission) (k : String) :
    ((challenge_key_hash st ip d k).2 = Except.error invalidNonce ↔
      st.NONCES ip ≠ some d.nonce) ∧
    (st.NONCES ip = some d.nonce →
      ((challenge_key_hash st ip d k).2 = Except.error incorrectHash ↔
        d.hash ≠ sha256HexOfString ("7-13-21-" ++ d.nonce))) ∧
    ((challenge_key_hash st ip d k).2.isOk = true ↔
      (st.NONCES ip = some d.nonce ∧
        d.hash = sha256HexOfString ("7-13-21-" ++ d.nonce))) ∧
    (st.NONCES ip = some d.nonce →
      d.hash = sha256HexOfString ("7-13-21-" ++ d.nonce) →
      (challenge_key_hash st ip d k).1.KEYS ip = some k ∧
      (challenge_key_hash st ip d k).2 =
        Except.ok ⟨"OK", "/challenge/prize", "Use query param ?key=...", k⟩) := by
  have hs : serverExpectedHash d.nonce = sha256HexOfString ("7-13-21-" ++ d.nonce) := rfl
  by_cases h1 : st.NONCES ip = some d.nonce
  · by_cases h2 : d.hash = sha256HexOfString ("7-13-21-" ++ d.nonce)
    · simp [challenge_key_hash, h1, h2, hs, Except.isOk, Except.toBool, invalidNonce, incorrectHash]
    · simp [challenge_key_hash, h1, h2, hs, Except.isOk, Except.toBool, invalidNonce, incorrectHash]
  · simp [challenge_key_hash, h1, Except.isOk, Except.toBool, invalidNonce, incorrectHash]

/-- Witness for C3 at the example of the specification: with stored nonce
abc123 and the true digest of 7-13-21-abc123, the hash step succeeds,
stores the fresh key and returns it. -/
theorem C3_witness :
    stWithNonce.NONCES testClient = some "abc123" ∧
    abc123Digest = sha256HexOfString ("7-13-21-" ++ "abc123") ∧
    (challenge_key_hash stWithNonce testClient ⟨"abc123", abc123Digest⟩ "K1").1.KEYS testClient = some "K1" ∧
    (challenge_key_hash stWithNonce testClient ⟨"abc123", abc123Digest⟩ "K1").2 =
      Except.ok ⟨"OK", "/challenge/prize", "Use query param ?key=...", "K1"⟩ := by
  have h1 : stWithNonce.NONCES testClient = some "abc123" := by decide
  have h2 : abc123Digest = sha256HexOfString ("7-13-21-" ++ "abc123") := by decide
  have h := (C3_key_hash_spec stWithNonce testClient ⟨"abc123", abc123Digest⟩ "K1").2.2.2 h1 h2
  exact ⟨h1, h2, h.1, h.2⟩

/-- C4: `challenge_submit` succeeds exactly when the claimed sum equals the
sum of the three secrets, which is 41; otherwise it fails with the
incorrect-result error, a 400 client error; 41 succeeds and 40 fails. -/
theorem C4_submit_sum_spec (st : ChallengeState) (r : Int) :
    ((challenge_submit st ⟨r⟩).2.isOk = true ↔ r = secretSum) ∧
    ((challenge_submit st ⟨r⟩).2 = Except.error incorrectResult ↔ r ≠ secretSum) ∧
    secretSum = 7 + 13 + 21 ∧
    incorrectResult.status_code = 400 ∧
    (challenge_submit st ⟨41⟩).2.isOk = true ∧
    (challenge_submit st ⟨40⟩).2.isOk = false := by
  refine ⟨?_, ?_, by decide, rfl, ?_, ?_⟩
  · by_cases h : r = secretSum <;> simp [challenge_submit, h, Except.isOk, Except.toBool]
  · by_cases h : r = secretSum <;> simp [challenge_submit, h, incorrectResult]
  · simp [challenge_submit, Except.isOk, Except.toBool, show (41 : Int) = secretSum from by decide]
  · simp [challenge_submit, Except.isOk, Except.toBool, show ¬((40 : Int) = secretSum) from by decide]

/-- C5: `challenge_prize` fails with the invalid-key 403 error exactly when
the supplied key is absent or empty or differs from the stored key of the
client; otherwise it returns the reward payload; in particular it fails on
an empty or missing key, before any key was issued to the client, and on a
key stored for a different client. -/
theorem C5_prize_spec (st : ChallengeState) (ip : String) (key : Option String) :
    ((challenge_prize st ip key).2 = Except.error invalidKey ↔
      (pyTruthy key = false ∨ st.KEYS ip ≠ key)) ∧
    ((challenge_prize st ip key).2 = Except.ok ⟨"API Master Badge", "Certificate"⟩ ↔
      (pyTruthy key = true ∧ st.KEYS ip = key)) ∧
    invalidKey.status_code = 403 ∧
    (challenge_prize st ip (some "")).2 = Except.error invalidKey ∧
    (challenge_prize st ip none).2 = Except.error invalidKey ∧
    (st.KEYS ip = none → (challenge_prize st ip key).2 = Except.error invalidKey) ∧
    (∀ ip2 k2, st.KEYS ip = some k2 → st.KEYS ip2 ≠ some k2 →
      (challenge_prize st ip2 (some k2)).2 = Except.error invalidKey) := by
  refine ⟨?_, ?_, rfl, ?_, ?_, ?_, ?_⟩
  · cases hk : pyTruthy key <;> by_cases he : st.KEYS ip = key <;>
      simp [challenge_prize, hk, he, invalidKey]
  · cases hk : pyTruthy key <;> by_cases he : st.KEYS ip = key <;>
      simp [challenge_prize, hk, he, invalidKey]
  · simp [challenge_prize, pyTruthy]
  · simp [challenge_prize, pyTruthy]
  · intro h
    cases key with
    | none => simp [challenge_prize, pyTruthy]
    | some s => simp [challenge_prize, h]
  · intro ip2 k2 h1 h2
    simp [challenge_prize, h2]

/-- Witness for C5: the key K0 stored for one client is rejected when
presented by a different client, and an empty key is rejected. -/
theorem C5_witness :
    stWithKey.KEYS testClient = some "K0" ∧
    stWithKey.KEYS otherClient ≠ some "K0" ∧
    (challenge_prize stWithKey otherClient (some "K0")).2 = Except.error invalidKey ∧
    (challenge_prize stWithKey testClient (some "")).2 = Except.error invalidKey := by
  have h := C5_prize_spec stWithKey testClient (some "K0")
  exact ⟨by decide, by decide,
    h.2.2.2.2.2.2 otherClient "K0" (by decide) (by decide), h.2.2.2.1⟩

/-- C6 counterexample: a successful sum submission from the initial state
leaves the state unchanged and stores no nonce for the submitting client,
against the stated issuance of a nonce by SubmitSum. -/
theorem C6_counterexample :
    (challenge_submit initState ⟨41⟩).2.isOk = true ∧
    (challenge_submit initState ⟨41⟩).1.NONCES testClient = none :=
  ⟨by decide, by decide⟩

/-- C6 (amended): `challenge_submit` stores nothing; the fresh nonce is
issued by the separate handler `challenge_key_start`, which stores it under
the client identifier and returns a payload containing it. -/
theorem C6_nonce_issued_by_key_start (st : ChallengeState)
    (d : ChallengeSubmission) (ip nonce : String) :
    (challenge_submit st d).1 = st ∧
    (challenge_key_start st ip nonce).1.NONCES ip = some nonce ∧
    (challenge_key_start st ip nonce).2.nonce = nonce := by
  refine ⟨challenge_submit_fst st d, ?_, rfl⟩
  simp [challenge_key_start]

/-- C7 counterexample: a client that never called `challenge_submit` but
called `challenge_key_start` does pass the nonce check: the hash submission
is not rejected with the invalid-nonce error. -/
theorem C7_counterexample :
    hasSubmit [(testClient, Req.keyStart "n0")] testClient = false ∧
    (challenge_key_hash (runTrace [(testClient, Req.keyStart "n0")]) testClient
        ⟨"n0", "x"⟩ "K").2 ≠ Except.error invalidNonce := by
  refine ⟨by decide, ?_⟩
  have hn : (runTrace [(testClient, Req.keyStart "n0")]).NONCES testClient = some "n0" := by
    decide
  unfold challenge_key_hash
  rw [if_neg (by simp [hn])]
  split
  · simp [incorrectHash, invalidNonce]
  · simp

/-- C7 (amended): the nonce check of `challenge_key_hash` is gated by
`challenge_key_start`, not by `challenge_submit`: after any trace containing
no nonce issuance for the client, the hash submission fails with the
invalid-nonce error whatever nonce is supplied. -/
theorem C7_invalid_nonce_without_key_start (tr : List (String × Req)) (ip : String)
    (d : HashSubmission) (k : String) (h : hasKeyStart tr ip = false) :
    (challenge_key_hash (runTrace tr) ip d k).2 = Except.error invalidNonce := by
  have hn := runTrace_NONCES_none tr ip h
  unfold challenge_key_hash
  rw [if_pos (by simp [hn])]

/-- Witness for C7: a client whose only request was a successful sum
submission still fails the nonce check. -/
theorem C7_witness :
    hasKeyStart [(otherClient, Req.submit ⟨41⟩)] otherClient = false ∧
    (challenge_key_hash (runTrace [(otherClient, Req.submit ⟨41⟩)]) otherClient
        ⟨"n", "h"⟩ "K").2 = Except.error invalidNonce :=
  ⟨by decide, C7_invalid_nonce_without_key_start _ _ _ _ (by decide)⟩

/-- C8 counterexample: with the key K0 stored for the client, a first
successful prize claim followed by a second claim of the same key by the
same client also succeeds, against the stated single use of the key. -/
theorem C8_counterexample :
    (challenge_prize stWithKey testClient (some "K0")).2 =
      Except.ok ⟨"API Master Badge", "Certificate"⟩ ∧
    (challenge_prize (challenge_prize stWithKey testClient (some "K0")).1 testClient
        (some "K0")).2 = Except.ok ⟨"API Master Badge", "Certificate"⟩ :=
  ⟨by decide, by decide⟩

/-- C8 (amended): the issued key is not single-use: `challenge_prize` never
changes the global maps, so after a successful claim a second claim by the
same client with the same key returns the same successful outcome. -/
theorem C8_prize_key_not_consumed (st : ChallengeState) (ip : String) (key : Option String) :
    (challenge_prize st ip key).1 = st ∧
    ((challenge_prize st ip key).2.isOk = true →
      (challenge_prize (challenge_prize st ip key).1 ip key).2 =
        (challenge_prize st ip key).2) := by
  refine ⟨challenge_prize_fst st ip key, fun _ => ?_⟩
  rw [challenge_prize_fst]

/-- Witness for C8: the stored key K0 is claimed twice with the same
outcome. -/
theorem C8_witness :
    (challenge_prize stWithKey testClient (some "K0")).1 = stWithKey ∧
    (challenge_prize (challenge_prize stWithKey testClient (some "K0")).1 testClient
        (some "K0")).2 = (challenge_prize stWithKey testClient (some "K0")).2 :=
  ⟨(C8_prize_key_not_consumed stWithKey testClient (some "K0")).1,
   (C8_prize_key_not_consumed stWithKey testClient (some "K0")).2 (by decide)⟩

/-- C9: nonce issuance is frame-preserving on the key store: it changes no
entry of `KEYS`, changes no `NONCES` entry of another client, and the
outcome of a prize claim by the client is unchanged by it. -/
theorem C9_key_start_frame (st : ChallengeState) (ip nonce c : String)
    (key : Option String) :
    (challenge_key_start st ip nonce).1.KEYS = st.KEYS ∧
    (c ≠ ip → (challenge_key_start st ip nonce).1.NONCES c = st.NONCES c) ∧
    (challenge_prize (challenge_key_start st ip nonce).1 ip key).2 =
      (challenge_prize st ip key).2 := by
  refine ⟨rfl, fun hc => ?_, ?_⟩
  · simp [challenge_key_start, hc]
  · by_cases hc2 : pyTruthy key = false ∨ st.KEYS ip ≠ key <;>
      simp [challenge_prize, challenge_key_start, hc2]

/-- Witness for C9: rotating the nonce of the key holder does not revoke
the stored key K0 and leaves the entry of the other client alone. -/
theorem C9_witness :
    (challenge_key_start stWithKey testClient "n1").1.KEYS = stWithKey.KEYS ∧
    (challenge_key_start stWithKey testClient "n1").1.NONCES otherClient =
      stWithKey.NONCES otherClient ∧
    (challenge_prize (challenge_key_start stWithKey testClient "n1").1 testClient
        (some "K0")).2 = (challenge_prize stWithKey testClient (some "K0")).2 := by
  have h := C9_key_start_frame stWithKey testClient "n1" otherClient (some "K0")
  exact ⟨h.1, h.2.1 (by decide), h.2.2⟩

/-- C10: every failing operation leaves both global maps exactly as they
were: a submit, hash or prize request whose outcome is an error returns the
state unchanged. -/
theorem C10_error_atomicity (st : ChallengeState) (ip : String)
    (d : ChallengeSubmission) (hs : HashSubmission) (fk : String)
    (key : Option String) :
    ((challenge_submit st d).2.isOk = false → (challenge_submit st d).1 = st) ∧
    ((challenge_key_hash st ip hs fk).2.isOk = false →
      (challenge_key_hash st ip hs fk).1 = st) ∧
    ((challenge_prize st ip key).2.isOk = false → (challenge_prize st ip key).1 = st) := by
  refine ⟨fun _ => challenge_submit_fst st d, ?_, fun _ => challenge_prize_fst st ip key⟩
  unfold challenge_key_hash
  split
  · intro _; rfl
  · split
    · intro _; rfl
    · intro hcon
      simp [Except.isOk, Except.toBool] at hcon

/-- Witness for C10: concrete failing submit, hash and prize requests all
return the initial state unchanged. -/
theorem C10_witness :
    (challenge_submit initState ⟨40⟩).1 = initState ∧
    (challenge_key_hash initState testClient ⟨"n", "h"⟩ "K").1 = initState ∧
    (challenge_prize initState testClient none).1 = initState := by
  have h := C10_error_atomicity initState testClient ⟨40⟩ ⟨"n", "h"⟩ "K" none
  exact ⟨h.1 (by decide), h.2.1 (by decide), h.2.2 (by decide)⟩

end Challenge
